import Mathlib

/-!
Verification of the `pipeline19.py` data-ingestion pipeline: a shallow
embedding of its three luigi tasks (`DownloadData`, `ExtractAndProcessData`,
`SegmentTables`) and proofs of the specification's claims about them.

Python strings are modelled as Lean `String`s but are manipulated through
their code-point lists (`String.data`), which matches Python's
sequence-of-code-points semantics.
-/

deriving instance DecidableEq for Except

namespace Pipeline19

/-- An in-memory table: the model of a `pandas.DataFrame` as produced by
`pd.read_csv(..., sep='\t')` — a header row of column names and data rows. -/
structure DataFrame where
  header : List String
  rows : List (List String)
  deriving DecidableEq, Repr

/-- Split a list of characters on a separator character; `n` separators
produce `n + 1` (possibly empty) groups. -/
def splitOnChar (c : Char) : List Char → List (List Char)
  | [] => [[]]
  | a :: rest =>
    match splitOnChar c rest with
    | [] => [[a]]
    | g :: gs => if a = c then [] :: g :: gs else (a :: g) :: gs

/-- Split a string into its tab-separated fields. -/
def splitTab (s : String) : List String :=
  (splitOnChar '\t' s.data).map String.mk

/-- Models the tabular-I/O collaborator `pd.read_csv(fio, sep='\t')` at the
interface boundary of spec §6: given buffered lines whose first line is the
header, produce a table; an empty buffer raises (pandas `EmptyDataError`,
"No columns to parse from file"). Tokenization internals of the external
parser are out of scope per spec §1. -/
def read_csv (buf : List String) : Except String DataFrame :=
  match buf with
  | [] => .error "EmptyDataError: No columns to parse from file"
  | h :: rest => .ok ⟨splitTab h, rest.map splitTab⟩

/-- `line.startswith('[')` for a Python `str`: the first code point is `'['`. -/
def pyStartsWithBracket (l : String) : Bool :=
  match l.data with
  | [] => false
  | c :: _ => c = '['

/-- Membership in the strip set of `line.strip('[]\n')`. -/
def inStripSet (c : Char) : Bool :=
  c = '[' || c = ']' || c = '\n'

/-- Python `line.strip('[]\n')`: remove every leading and trailing character
belonging to the set `{'[', ']', '\n'}`. -/
def pyStrip (s : String) : String :=
  String.mk (((s.data.dropWhile inStripSet).reverse.dropWhile inStripSet).reverse)

/-- Python truthiness of `write_key` (`if write_key:`): `None` and the empty
string are falsy, every other string is truthy. -/
def pyTruthy : Option String → Bool
  | none => false
  | some s => if s = "" then false else true

/-- The loop state of `SegmentTables._process_text_file`: the `StringIO`
buffer `fio` (as buffered lines), the current `write_key` (`None` initially),
and the dict `dfs` of finalized tables in insertion order. -/
structure SegState where
  fio : List String
  write_key : Option String
  dfs : List (Option String × DataFrame)
  deriving DecidableEq, Repr

/-- Python dict assignment `d[k] = v`: overwrite in place if the key is
present, else append at the end (insertion order preserved). -/
def dictInsert (k : Option String) (v : DataFrame) :
    List (Option String × DataFrame) → List (Option String × DataFrame)
  | [] => [(k, v)]
  | (k', v') :: rest =>
    if k' = k then (k, v) :: rest else (k', v') :: dictInsert k v rest

/-- One iteration of the `for line in file` loop of
`SegmentTables._process_text_file` (pipeline19.py lines 114–122):
a line starting with `'['` finalizes the buffer (only when `write_key` is
truthy) and becomes the new stripped `write_key` without being buffered;
any other line is appended to the buffer. -/
def pyStep (st : SegState) (line : String) : Except String SegState :=
  if pyStartsWithBracket line then
    if pyTruthy st.write_key then
      match read_csv st.fio with
      | .error e => .error e
      | .ok df => .ok ⟨[], some (pyStrip line), dictInsert st.write_key df st.dfs⟩
    else
      .ok ⟨st.fio, some (pyStrip line), st.dfs⟩
  else
    .ok ⟨st.fio ++ [line], st.write_key, st.dfs⟩

/-- The whole `for line in file` loop, threading the state through `pyStep`;
an exception aborts the loop. -/
def pyLoop : List String → SegState → Except String SegState
  | [], st => .ok st
  | l :: rest, st =>
    match pyStep st l with
    | .error e => .error e
    | .ok st' => pyLoop rest st'

/-- The initial loop state: empty `StringIO`, `write_key = None`, empty dict. -/
def initState : SegState := ⟨[], none, []⟩

/-- The parsing phase of `SegmentTables._process_text_file` (lines 111–124):
run the loop over the file's lines, then unconditionally finalize the
remaining buffer under the current `write_key`. Returns the dict `dfs`, or
the propagated exception. -/
def pyProcessTextFile (lines : List String) :
    Except String (List (Option String × DataFrame)) :=
  match pyLoop lines initState with
  | .error e => .error e
  | .ok st =>
    match read_csv st.fio with
    | .error e => .error e
    | .ok df => .ok (dictInsert st.write_key df st.dfs)

/-- The finalization after the loop (pipeline19.py lines 123–124):
`fio.seek(0); dfs[write_key] = pd.read_csv(fio, sep='\t')`. -/
def pyFinish (st : SegState) : Except String (List (Option String × DataFrame)) :=
  match read_csv st.fio with
  | .error e => .error e
  | .ok df => .ok (dictInsert st.write_key df st.dfs)

/-- Loop followed by finalization, from an arbitrary state. -/
def pyRun (lines : List String) (st : SegState) :
    Except String (List (Option String × DataFrame)) :=
  match pyLoop lines st with
  | .error e => .error e
  | .ok st' => pyFinish st'

/-- The table `read_csv` builds from a non-empty buffer: first line as
header, remaining lines as rows. -/
def mkDF : List String → DataFrame
  | [] => ⟨[], []⟩
  | h :: rest => ⟨splitTab h, rest.map splitTab⟩

/-- The spec's segmentation state machine (§4.4, steps 1–3), parameterized
by the reading of "a current section tag is already set": maintain a current
tag and a buffer; a section-open-bracket line finalizes the buffer when the
tag counts as set (and then resets the buffer) and becomes the new tag
without being buffered; other lines are buffered; at end of input the
remaining buffer is finalized once under the current tag. -/
def specSegmenter (tagIsSet : Option String → Bool) :
    List String → Option String → List String →
    List (Option String × DataFrame) → Except String (List (Option String × DataFrame))
  | [], tag, buf, acc =>
    match read_csv buf with
    | .error e => .error e
    | .ok df => .ok (dictInsert tag df acc)
  | l :: rest, tag, buf, acc =>
    if pyStartsWithBracket l then
      if tagIsSet tag then
        match read_csv buf with
        | .error e => .error e
        | .ok df => specSegmenter tagIsSet rest (some (pyStrip l)) [] (dictInsert tag df acc)
      else
        specSegmenter tagIsSet rest (some (pyStrip l)) buf acc
    else
      specSegmenter tagIsSet rest tag (buf ++ [l]) acc

/-- The columns removed by the `Probes` reduction step
(pipeline19.py lines 139–141). -/
def reducedCols : List String :=
  ["Definition", "Ontology_Component", "Ontology_Process", "Ontology_Function",
   "Synonyms", "Obsolete_Probe_Id", "Probe_Sequence"]

/-- Models `df.drop(columns=cols)` with pandas's default `errors='raise'`:
a `KeyError` if any requested column is absent, otherwise the table with
those columns (and the corresponding row entries) removed. -/
def dropColumns (cols : List String) (df : DataFrame) : Except String DataFrame :=
  if cols.all (fun c => df.header.contains c) then
    .ok ⟨df.header.filter (fun h => !(cols.contains h)),
         df.rows.map (fun r =>
           ((df.header.zip r).filter (fun p => !(cols.contains p.1))).map Prod.snd)⟩
  else
    .error "KeyError"

/-- The dict key rendered by the f-string `f"_{key}.tsv"`; Python prints
`None` for the undefined tag. -/
def keyStr : Option String → String
  | none => "None"
  | some s => s

/-- Fueled worker for `pyReplace`; the fuel (the input length suffices)
keeps the recursion structural so that it evaluates inside the kernel. -/
def pyReplaceFuel (pat rep : List Char) : Nat → List Char → List Char
  | _, [] => []
  | 0, l => l
  | fuel + 1, c :: rest =>
    if List.isPrefixOf pat (c :: rest) && !pat.isEmpty then
      rep ++ pyReplaceFuel pat rep fuel (List.drop (pat.length - 1) rest)
    else
      c :: pyReplaceFuel pat rep fuel rest

/-- Python `s.replace(pat, rep)` for a non-empty pattern: replace every
non-overlapping occurrence, scanning left to right. (The degenerate empty
pattern, which Python treats as matching between every character, is not
used by the program and is modelled as a no-op.) -/
def pyReplace (s pat rep : String) : String :=
  String.mk (pyReplaceFuel pat.data rep.data s.data.length s.data)

/-- The saving loop of `SegmentTables._process_text_file`
(pipeline19.py lines 132–144): write each table of `dfs` in insertion order
as `<filename with .txt replaced>_<key>.tsv`; for the `Probes` key
additionally write `Probes_reduced.tsv` with `reducedCols` dropped.
Returns the files written (name and content) in order, and the `KeyError`
if the reduction fails — in which case the loop stops with the failing
key's main table already written. -/
def saveTables (filename : String) :
    List (Option String × DataFrame) → List (String × DataFrame) × Option String
  | [] => ([], none)
  | (key, df) :: rest =>
    let mainName := pyReplace filename ".txt" ("_" ++ keyStr key ++ ".tsv")
    if key = some "Probes" then
      match dropColumns reducedCols df with
      | .ok rdf =>
        let r := saveTables filename rest
        ((mainName, df) :: ("Probes_reduced.tsv", rdf) :: r.1, r.2)
      | .error e => ([(mainName, df)], some e)
    else
      let r := saveTables filename rest
      ((mainName, df) :: r.1, r.2)

/-! ### Filesystem model for the Unpacker (`ExtractAndProcessData`)

The filesystem is a list of the paths that exist; collaborator outcomes
(tar extraction, gzip decompression) are parameters, since those libraries
are external per spec §1/§6. -/

/-- Python `os.remove`: delete the path, raising `FileNotFoundError` if it
does not exist. -/
def osRemove (fs : List String) (p : String) : Except String (List String) :=
  if p ∈ fs then .ok (fs.filter (fun q => q ≠ p)) else .error "FileNotFoundError"

/-- Outcome of the tar-extraction collaborator: the member names extracted,
or the exception raised. -/
inductive TarOutcome
  | extracted (names : List String)
  | failed (msg : String)

/-- The extraction step of `ExtractAndProcessData.run`
(pipeline19.py lines 45–57): `try` open/extractall/getnames,
`finally os.remove(tar_path)`. Returns the member names (or the propagated
exception) together with the filesystem after the step; an exception raised
by the `finally` clause itself replaces the in-flight one. -/
def extractStage (fs : List String) (tarPath extractPath : String)
    (tar : TarOutcome) : Except String (List String) × List String :=
  let body : Except String (List String) × List String :=
    match tar with
    | .extracted names =>
      (.ok names, fs ++ names.map (fun n => extractPath ++ "/" ++ n))
    | .failed m => (.error m, fs)
  match osRemove body.2 tarPath with
  | .ok fs2 => (body.1, fs2)
  | .error m => (.error m, body.2)

/-- Outcome of the gzip-decompression collaborator: success, or an
exception together with whether a partially written output file was left
behind. -/
inductive GzipOutcome
  | decompressed
  | failed (msg : String) (wrotePart : Bool)

/-- Characters after the last `'/'` of a path. -/
def afterLastSlash (cs : List Char) : List Char :=
  (cs.reverse.takeWhile (fun c => c ≠ '/')).reverse

/-- Python `os.path.basename`. -/
def pyBasename (p : String) : String :=
  String.mk (afterLastSlash p.data)

/-- Index of the last `'.'` in a character list, if any. -/
def lastDotIdx (cs : List Char) : Option Nat :=
  match cs.reverse.findIdx? (fun c => c = '.') with
  | none => none
  | some k => some (cs.length - 1 - k)

/-- Python `os.path.splitext(p)[0]`: cut at the last dot of the final path
component, unless every character of that component before the dot is
itself a dot (leading-dot files keep their name). -/
def pySplitextRoot (p : String) : String :=
  let cs := p.data
  let base := afterLastSlash cs
  let pre := cs.take (cs.length - base.length)
  match lastDotIdx base with
  | none => p
  | some i =>
    if (base.take i).any (fun c => c ≠ '.') then String.mk (pre ++ base.take i) else p

/-- Python `item.endswith(suffix)`. -/
def pyEndsWith (s suffix : String) : Bool :=
  List.isSuffixOf suffix.data s.data

/-- `ExtractAndProcessData._process_gzip_file` (pipeline19.py lines 69–81):
decompress `gzPath` to `extractPath/<stem of basename>`, `finally` delete
`gzPath`; the decompression exception, if any, is re-raised. -/
def processGzipFile (fs : List String) (gzPath extractPath : String)
    (gz : GzipOutcome) : Except String Unit × List String :=
  let outputPath := extractPath ++ "/" ++ pySplitextRoot (pyBasename gzPath)
  let body : Except String Unit × List String :=
    match gz with
    | .decompressed => (.ok (), fs ++ [outputPath])
    | .failed m wrotePart => (.error m, if wrotePart then fs ++ [outputPath] else fs)
  match osRemove body.2 gzPath with
  | .ok fs2 => (body.1, fs2)
  | .error m => (.error m, body.2)

/-- One iteration of the member loop of `ExtractAndProcessData.run`
(pipeline19.py lines 60–66): ensure the stem-named directory exists, and
decompress the member into it when its name ends in `.gz`. -/
def processMember (fs : List String) (extractPath item : String)
    (gz : GzipOutcome) : Except String Unit × List String :=
  let itemPath := extractPath ++ "/" ++ item
  let itemDir := extractPath ++ "/" ++ pySplitextRoot item
  let fs0 := if itemDir ∈ fs then fs else fs ++ [itemDir]
  if pyEndsWith item ".gz" then processGzipFile fs0 itemPath itemDir gz
  else (.ok (), fs0)

/-! ### The stage graph and the pipeline engine -/

/-- The three luigi tasks of the pipeline. -/
inductive Stage
  | download
  | extract
  | segment
  deriving DecidableEq, Repr

/-- The dependency declared by each task's `requires` method
(pipeline19.py lines 36–37 and 92–93); `DownloadData` has none. -/
def Stage.requires : Stage → Option Stage
  | .download => none
  | .extract => some .download
  | .segment => some .extract

/-- The output path declared by each task's `output` method
(pipeline19.py lines 16–17, 84–85, 151–152), a pure function of the stage
and the dataset identifier. -/
def Stage.output (id : String) : Stage → String
  | .download => "data/" ++ id ++ "_RAW.tar"
  | .extract => "extracted/" ++ id
  | .segment => "processed/" ++ id

/-- Modelled from the spec: the pipeline engine (spec §4.1) is the external
luigi scheduler, not code under src/. Per the spec's contract, a stage whose
output already exists is treated as satisfied and its run action is skipped
without examining upstream stages; a stage whose output is missing runs
after its (recursively resolved) dependency. `planDownload` is the plan for
the `DownloadData` terminal stage. -/
def planDownload (fs : List String) (id : String) : List Stage :=
  if Stage.output id .download ∈ fs then [] else [.download]

/-- Modelled from the spec: the engine's plan for the
`ExtractAndProcessData` terminal stage (see `planDownload`). -/
def planExtract (fs : List String) (id : String) : List Stage :=
  if Stage.output id .extract ∈ fs then [] else planDownload fs id ++ [.extract]

/-- Modelled from the spec: the engine's plan for the `SegmentTables`
terminal stage (see `planDownload`). -/
def planSegment (fs : List String) (id : String) : List Stage :=
  if Stage.output id .segment ∈ fs then [] else planExtract fs id ++ [.segment]

/-- Modelled from the spec: the run actions the engine executes for a
requested terminal stage, in dependency order (earliest dependency first). -/
def runPlan (fs : List String) (id : String) : Stage → List Stage
  | .download => planDownload fs id
  | .extract => planExtract fs id
  | .segment => planSegment fs id

/-! ### Lemmas about the segmentation machine -/

/-- The fixed message of the only exception the parsing phase can raise. -/
def emptyDataMsg : String := "EmptyDataError: No columns to parse from file"

theorem read_csv_ne_nil (ls : List String) (h : ls ≠ []) :
    read_csv ls = .ok (mkDF ls) := by
  cases ls with
  | nil => exact absurd rfl h
  | cons a t => rfl

theorem read_csv_error (buf : List String) (e : String)
    (h : read_csv buf = .error e) : e = emptyDataMsg := by
  cases buf with
  | nil =>
    simp only [read_csv, Except.error.injEq] at h
    exact h.symm
  | cons a t => simp [read_csv] at h

theorem pyStep_noBracket (st : SegState) (l : String)
    (h : pyStartsWithBracket l = false) :
    pyStep st l = .ok ⟨st.fio ++ [l], st.write_key, st.dfs⟩ := by
  simp [pyStep, h]

theorem pyStep_bracket_unset (st : SegState) (l : String)
    (hl : pyStartsWithBracket l = true) (hk : pyTruthy st.write_key = false) :
    pyStep st l = .ok ⟨st.fio, some (pyStrip l), st.dfs⟩ := by
  simp [pyStep, hl, hk]

theorem pyStep_error (st : SegState) (l : String) (e : String)
    (h : pyStep st l = .error e) : e = emptyDataMsg := by
  unfold pyStep at h
  split at h
  · split at h
    · cases hr : read_csv st.fio with
      | error e' =>
        rw [hr] at h
        simp only [Except.error.injEq] at h
        exact h ▸ read_csv_error st.fio e' hr
      | ok df => rw [hr] at h; simp at h
    · simp at h
  · simp at h

theorem pyLoop_noBracket (ls : List String)
    (h : ∀ l ∈ ls, pyStartsWithBracket l = false) (st : SegState) :
    pyLoop ls st = .ok ⟨st.fio ++ ls, st.write_key, st.dfs⟩ := by
  induction ls generalizing st with
  | nil => simp [pyLoop]
  | cons l rest ih =>
    rw [pyLoop, pyStep_noBracket st l (h l (by simp))]
    dsimp only
    rw [ih (fun x hx => h x (List.mem_cons_of_mem _ hx))]
    simp

theorem pyLoop_append (xs ys : List String) (st : SegState) :
    pyLoop (xs ++ ys) st =
      match pyLoop xs st with
      | .error e => .error e
      | .ok st' => pyLoop ys st' := by
  induction xs generalizing st with
  | nil => simp [pyLoop]
  | cons x rest ih =>
    rw [List.cons_append, pyLoop, pyLoop]
    cases pyStep st x with
    | error e => rfl
    | ok st' => exact ih st'

theorem pyLoop_error (ls : List String) (st : SegState) (e : String)
    (h : pyLoop ls st = .error e) : e = emptyDataMsg := by
  induction ls generalizing st with
  | nil => simp [pyLoop] at h
  | cons l rest ih =>
    rw [pyLoop] at h
    cases hs : pyStep st l with
    | error e' =>
      rw [hs] at h
      simp only [Except.error.injEq] at h
      exact h ▸ pyStep_error st l e' hs
    | ok st' =>
      rw [hs] at h
      exact ih st' h

theorem pyProcessTextFile_eq_pyRun (ls : List String) :
    pyProcessTextFile ls = pyRun ls initState := by
  unfold pyProcessTextFile pyRun pyFinish
  cases pyLoop ls initState <;> rfl

theorem pyRun_cons (l : String) (rest : List String) (st : SegState) :
    pyRun (l :: rest) st =
      match pyStep st l with
      | .error e => .error e
      | .ok st' => pyRun rest st' := by
  cases hs : pyStep st l with
  | error e => simp only [pyRun, pyLoop, hs]
  | ok st' => simp only [pyRun, pyLoop, hs]

theorem dictInsert_singleton_ne (k1 k2 : Option String) (v1 v2 : DataFrame)
    (h : k1 ≠ k2) :
    dictInsert k2 v2 [(k1, v1)] = [(k1, v1), (k2, v2)] := by
  simp [dictInsert, h]

theorem pyTruthy_some (s : String) (h : s ≠ "") : pyTruthy (some s) = true := by
  simp [pyTruthy, h]

theorem pyStep_bracket_set (st : SegState) (l : String)
    (hl : pyStartsWithBracket l = true) (hk : pyTruthy st.write_key = true)
    (hfio : st.fio ≠ []) :
    pyStep st l =
      .ok ⟨[], some (pyStrip l), dictInsert st.write_key (mkDF st.fio) st.dfs⟩ := by
  simp [pyStep, hl, hk, read_csv_ne_nil st.fio hfio]

theorem pyRun_append (xs ys : List String) (st : SegState) :
    pyRun (xs ++ ys) st =
      match pyLoop xs st with
      | .error e => .error e
      | .ok st' => pyRun ys st' := by
  unfold pyRun
  rw [pyLoop_append]
  cases pyLoop xs st <;> rfl

theorem pyRun_eq_specSegmenter (ls : List String) :
    ∀ (tag : Option String) (buf : List String)
      (acc : List (Option String × DataFrame)),
      pyRun ls ⟨buf, tag, acc⟩ = specSegmenter pyTruthy ls tag buf acc := by
  induction ls with
  | nil => intro tag buf acc; rfl
  | cons l rest ih =>
    intro tag buf acc
    rw [pyRun_cons]
    unfold pyStep specSegmenter
    by_cases hb : pyStartsWithBracket l = true
    · simp only [hb, if_true]
      by_cases hk : pyTruthy tag = true
      · simp only [hk, if_true]
        cases hr : read_csv buf with
        | error e => rfl
        | ok df => exact ih _ _ _
      · rw [Bool.not_eq_true] at hk
        simp only [hk, Bool.false_eq_true, if_false]
        exact ih _ _ _
    · rw [Bool.not_eq_true] at hb
      simp only [hb, Bool.false_eq_true, if_false]
      exact ih _ _ _

/-! ### Claim theorems -/

/-- C3: for every (non-empty) input text file containing no line that
begins with the section-open bracket character, the Segmenter produces
exactly one table, keyed by the undefined tag, built from the entire file
content with the first line as header and every subsequent line as data. -/
theorem C3_no_tag_lines (h : String) (t : List String)
    (hnb : ∀ l ∈ h :: t, pyStartsWithBracket l = false) :
    pyProcessTextFile (h :: t) = .ok [(none, ⟨splitTab h, t.map splitTab⟩)] := by
  unfold pyProcessTextFile
  rw [pyLoop_noBracket _ hnb initState]
  simp [initState, read_csv, dictInsert]

/-- Witness for C3 on a concrete two-line file. -/
theorem C3_no_tag_lines_witness :
    pyProcessTextFile ["a\tb", "1\t2"] = .ok [(none, ⟨["a", "b"], [["1", "2"]]⟩)] :=
  (C3_no_tag_lines "a\tb" ["1\t2"] (by decide)).trans (by decide)

/-- C5: for every input text file whose first line is a section-tag line,
no table is finalized for the (empty) content before the first tag: the
step on a tag line with the tag still unset finalizes nothing and resets
nothing, and processing the whole file equals processing the remaining
lines from the state with the tag set, an empty buffer and an empty dict. -/
theorem C5_first_line_tag (t : String) (rest buf : List String)
    (dfs : List (Option String × DataFrame)) (ht : pyStartsWithBracket t = true) :
    pyStep ⟨buf, none, dfs⟩ t = .ok ⟨buf, some (pyStrip t), dfs⟩ ∧
    pyProcessTextFile (t :: rest) = pyRun rest ⟨[], some (pyStrip t), []⟩ := by
  constructor
  · exact pyStep_bracket_unset ⟨buf, none, dfs⟩ t ht rfl
  · rw [pyProcessTextFile_eq_pyRun, pyRun_cons,
      pyStep_bracket_unset initState t ht rfl]
    rfl

/-- Witness for C5 on a concrete file starting with a tag line. -/
theorem C5_first_line_tag_witness :
    pyStep ⟨["x"], none, []⟩ "[A]" = .ok ⟨["x"], some "A", []⟩ ∧
    pyProcessTextFile ["[A]", "h", "1"] = pyRun ["h", "1"] ⟨[], some "A", []⟩ := by
  have h := C5_first_line_tag "[A]" ["h", "1"] ["x"] [] (by decide)
  exact ⟨h.1.trans (by decide), h.2.trans (by decide)⟩

/-- C9: a line is treated as a section-tag line exactly when its first
character is `'['` (a closing bracket is not required); the resulting tag
strips every leading and trailing `'['`, `']'` and newline, so `"[[X]]"`
and `"[X"` both yield tag `"X"`; a tag line that the step accepts sets the
tag to the stripped line, and every non-tag line is buffered verbatim. -/
theorem C9_tag_line_recognition :
    (∀ l : String, pyStartsWithBracket l = true ↔ l.data.head? = some '[') ∧
    pyStrip "[[X]]" = "X" ∧ pyStrip "[X" = "X" ∧
    (∀ (st : SegState) (l : String) (st' : SegState),
      pyStartsWithBracket l = true → pyStep st l = .ok st' →
      st'.write_key = some (pyStrip l)) ∧
    (∀ (st : SegState) (l : String), pyStartsWithBracket l = false →
      pyStep st l = .ok ⟨st.fio ++ [l], st.write_key, st.dfs⟩) := by
  refine ⟨?_, by decide, by decide, ?_, fun st l h => pyStep_noBracket st l h⟩
  · intro l
    cases l with
    | mk cs =>
      cases cs with
      | nil => simp [pyStartsWithBracket]
      | cons c cs' => simp [pyStartsWithBracket]
  · intro st l st' hl hstep
    unfold pyStep at hstep
    simp only [hl, if_true] at hstep
    by_cases hk : pyTruthy st.write_key = true
    · simp only [hk, if_true] at hstep
      cases hr : read_csv st.fio with
      | error e => rw [hr] at hstep; cases hstep
      | ok df => rw [hr] at hstep; cases hstep; rfl
    · rw [Bool.not_eq_true] at hk
      simp only [hk, Bool.false_eq_true, if_false] at hstep
      cases hstep
      rfl

/-- Witness for C9: a concrete accepted tag line and a concrete data line. -/
theorem C9_tag_line_recognition_witness :
    (SegState.mk [] (some "Q") [] : SegState).write_key = some (pyStrip "[Q]") ∧
    pyStep ⟨[], none, []⟩ "ab" = .ok ⟨["ab"], none, []⟩ :=
  ⟨C9_tag_line_recognition.2.2.2.1 ⟨[], none, []⟩ "[Q]" ⟨[], some "Q", []⟩
      (by decide) (by decide),
   C9_tag_line_recognition.2.2.2.2 ⟨[], none, []⟩ "ab" (by decide)⟩

/-- C1 counterexample: read literally ("a current section tag is already
set" = the tag is defined), the spec machine differs from the code on the
file `[]`, `a`, `1`, `[B]`, `c`, `3`: the code treats the empty tag
produced by the line `[]` as unset (Python truthiness), finalizes nothing
at `[B]`, and keeps the earlier lines in the buffer, yielding one table
keyed `B`; the literal spec machine finalizes a table keyed by the empty
tag and yields two tables. -/
theorem C1_counterexample :
    pyProcessTextFile ["[]", "a", "1", "[B]", "c", "3"] =
      .ok [(some "B", ⟨["a"], [["1"], ["c"], ["3"]]⟩)] ∧
    specSegmenter Option.isSome ["[]", "a", "1", "[B]", "c", "3"] none [] [] =
      .ok [(some "", ⟨["a"], [["1"]]⟩), (some "B", ⟨["c"], [["3"]]⟩)] ∧
    pyProcessTextFile ["[]", "a", "1", "[B]", "c", "3"] ≠
      specSegmenter Option.isSome ["[]", "a", "1", "[B]", "c", "3"] none [] [] :=
  ⟨by decide, by decide, by decide⟩

/-- C1 amended: the Segmenter implements the spec's line-by-line state
machine exactly, provided "a current section tag is already set" is read
as "set to a non-empty string" (a tag line whose stripped content is empty
leaves the tag falsy, so it does not finalize or reset the buffer). -/
theorem C1_amended_state_machine (ls : List String) :
    pyProcessTextFile ls = specSegmenter pyTruthy ls none [] [] := by
  rw [pyProcessTextFile_eq_pyRun]
  exact pyRun_eq_specSegmenter ls none [] []

/-- C2 counterexample: on the synthetic `[Header]`/`[Probes]` file of the
claim, the saving loop writes only the two main tables — no
`Probes_reduced.tsv` — and stops with a `KeyError`, because the reduction
drops seven columns and the `Probes` table of this file lacks the five
ontology/annotation columns. -/
theorem C2_counterexample :
    (pyProcessTextFile ["[Header]", "a\tb", "1\t2", "[Probes]",
        "ID\tDefinition\tProbe_Sequence", "1\tfoo\tACGT"]).map
        (fun dfs => ((saveTables "sample.txt" dfs).1.map Prod.fst,
                     (saveTables "sample.txt" dfs).2)) =
      .ok (["sample_Header.tsv", "sample_Probes.tsv"], some "KeyError") := by
  decide

/-- C2 amended: the synthetic file parses into exactly two tables keyed
`Header` and `Probes`; the additional `Probes` reduction fails with a
missing-column error (all seven columns of `reducedCols` must be present),
so the two main tables are written but no `Probes_reduced` table is
produced. -/
theorem C2_amended_synthetic :
    pyProcessTextFile ["[Header]", "a\tb", "1\t2", "[Probes]",
        "ID\tDefinition\tProbe_Sequence", "1\tfoo\tACGT"] =
      .ok [(some "Header", ⟨["a", "b"], [["1", "2"]]⟩),
           (some "Probes", ⟨["ID", "Definition", "Probe_Sequence"],
             [["1", "foo", "ACGT"]]⟩)] ∧
    dropColumns reducedCols
        ⟨["ID", "Definition", "Probe_Sequence"], [["1", "foo", "ACGT"]]⟩ =
      .error "KeyError" ∧
    (saveTables "sample.txt"
        [(some "Header", ⟨["a", "b"], [["1", "2"]]⟩),
         (some "Probes", ⟨["ID", "Definition", "Probe_Sequence"],
           [["1", "foo", "ACGT"]]⟩)]).1 =
      [("sample_Header.tsv", ⟨["a", "b"], [["1", "2"]]⟩),
       ("sample_Probes.tsv", ⟨["ID", "Definition", "Probe_Sequence"],
         [["1", "foo", "ACGT"]]⟩)] ∧
    (saveTables "sample.txt"
        [(some "Header", ⟨["a", "b"], [["1", "2"]]⟩),
         (some "Probes", ⟨["ID", "Definition", "Probe_Sequence"],
           [["1", "foo", "ACGT"]]⟩)]).2 = some "KeyError" :=
  ⟨by decide, by decide, by decide, by decide⟩

/-- C4 counterexample: a file with exactly two section-tag lines and
tabular data after the second tag on which the code produces no tables at
all: with no data line between the two tags, finalizing at the second tag
parses an empty buffer and raises. -/
theorem C4_counterexample :
    pyProcessTextFile ["[A]", "[B]", "x\ty", "1\t2"] = .error emptyDataMsg := by
  decide

/-- C4 amended: for a file with exactly two section-tag lines, tabular
data after the second tag, at least one line buffered before the second
tag, a non-empty first tag, and distinct tags, all data following the
second tag goes into the second section's table, which extends to
end-of-file, and exactly two tables are produced. -/
theorem C4_amended_two_sections (pre mid post : List String) (t1 t2 : String)
    (hpre : ∀ l ∈ pre, pyStartsWithBracket l = false)
    (hmid : ∀ l ∈ mid, pyStartsWithBracket l = false)
    (hpost : ∀ l ∈ post, pyStartsWithBracket l = false)
    (ht1 : pyStartsWithBracket t1 = true) (ht2 : pyStartsWithBracket t2 = true)
    (hne : pyStrip t1 ≠ "") (hdist : pyStrip t1 ≠ pyStrip t2)
    (hbufne : pre ++ mid ≠ []) (hpostne : post ≠ []) :
    pyProcessTextFile (pre ++ t1 :: (mid ++ t2 :: post)) =
      .ok [(some (pyStrip t1), mkDF (pre ++ mid)),
           (some (pyStrip t2), mkDF post)] := by
  rw [pyProcessTextFile_eq_pyRun, pyRun_append, pyLoop_noBracket pre hpre initState]
  dsimp only [initState]
  rw [List.nil_append, pyRun_cons,
    pyStep_bracket_unset ⟨pre, none, []⟩ t1 ht1 rfl]
  dsimp only
  rw [pyRun_append, pyLoop_noBracket mid hmid ⟨pre, some (pyStrip t1), []⟩]
  dsimp only
  rw [pyRun_cons, pyStep_bracket_set ⟨pre ++ mid, some (pyStrip t1), []⟩ t2 ht2
    (pyTruthy_some _ hne) hbufne]
  dsimp only
  unfold pyRun
  rw [pyLoop_noBracket post hpost]
  dsimp only
  rw [List.nil_append]
  unfold pyFinish
  rw [read_csv_ne_nil post hpostne]
  dsimp only [dictInsert]
  rw [if_neg (fun hc : some (pyStrip t1) = some (pyStrip t2) =>
    hdist (Option.some.inj hc))]

/-- Witness for the amended C4 on a concrete two-section file. -/
theorem C4_amended_two_sections_witness :
    pyProcessTextFile (([] : List String) ++ "[A]" :: (["m\tn", "3\t4"] ++ "[B]" :: ["p", "5"])) =
      .ok [(some "A", ⟨["m", "n"], [["3", "4"]]⟩),
           (some "B", ⟨["p"], [["5"]]⟩)] :=
  (C4_amended_two_sections [] ["m\tn", "3\t4"] ["p", "5"] "[A]" "[B]"
    (by decide) (by decide) (by decide) (by decide) (by decide)
    (by decide) (by decide) (by decide) (by decide)).trans (by decide)

/-- C10 counterexample: a file whose final line is a section-tag line on
which the Segmenter nevertheless succeeds and writes a table — the lines
before the tag were never finalized (the tag was unset, so the buffer was
not reset) and the buffer is not empty at end-of-file. -/
theorem C10_counterexample :
    pyProcessTextFile ["h", "1", "[X]"] = .ok [(some "X", ⟨["h"], [["1"]]⟩)] := by
  decide

/-- C10 amended: for a file whose final line is a section-tag line and
whose current tag is truthy when that line is processed (so the buffer is
reset there, or the run has already failed), the unconditional end-of-file
finalization parses an empty buffer and raises `EmptyDataError`; the stage
aborts and no tables are written for the file. -/
theorem C10_amended_trailing_tag (ls : List String) (l : String)
    (hl : pyStartsWithBracket l = true)
    (hset : (match pyLoop ls initState with
             | .ok st => pyTruthy st.write_key
             | .error _ => true) = true) :
    pyProcessTextFile (ls ++ [l]) = .error emptyDataMsg := by
  rw [pyProcessTextFile_eq_pyRun, pyRun_append]
  cases hll : pyLoop ls initState with
  | error e =>
    rw [pyLoop_error ls initState e hll]
  | ok st =>
    rw [hll] at hset
    dsimp only at hset ⊢
    rw [pyRun_cons]
    cases hfio : st.fio with
    | nil =>
      unfold pyStep
      rw [hl, hset, hfio]
      simp [read_csv, emptyDataMsg]
    | cons a t =>
      rw [pyStep_bracket_set st l hl hset (by rw [hfio]; simp)]
      rfl

/-- Witness for the amended C10 on a concrete file ending in a tag line. -/
theorem C10_amended_trailing_tag_witness :
    pyProcessTextFile (["[A]", "x\ty", "1\t2"] ++ ["[B]"]) = .error emptyDataMsg :=
  C10_amended_trailing_tag ["[A]", "x\ty", "1\t2"] "[B]" (by decide) (by decide)

/-! ### Lemmas for the filesystem model -/

theorem strAppendCancel (a b c : String) (h : a ++ b = a ++ c) : b = c := by
  have hd := congrArg String.data h
  simp only [String.data_append] at hd
  exact String.ext (List.append_cancel_left hd)

theorem osRemove_mem (fs : List String) (p : String) (hp : p ∈ fs) :
    osRemove fs p = .ok (fs.filter (fun q => q ≠ p)) := by
  simp [osRemove, hp]

theorem not_mem_filter_self (fs : List String) (p : String) :
    p ∉ fs.filter (fun q => q ≠ p) := by
  simp [List.mem_filter]

theorem mem_filter_ne (fs : List String) (a p : String) (ha : a ∈ fs)
    (hne : a ≠ p) : a ∈ fs.filter (fun q => q ≠ p) :=
  List.mem_filter.mpr ⟨ha, by simp [hne]⟩

/-- C6: after the Unpacker's extraction step terminates — whether the tar
collaborator returned member names or raised — the archive at the
Acquirer's declared output path no longer exists on disk: `os.remove` sits
in a `finally` clause, so deletion is unconditional once extraction has
been attempted. -/
theorem C6_archive_always_deleted (fs : List String) (id extractPath : String)
    (tar : TarOutcome) (hmem : Stage.output id .download ∈ fs) :
    Stage.output id .download ∉
      (extractStage fs (Stage.output id .download) extractPath tar).2 := by
  cases tar with
  | extracted names =>
    unfold extractStage
    dsimp only
    rw [osRemove_mem _ _ (List.mem_append_left _ hmem)]
    exact not_mem_filter_self _ _
  | failed m =>
    unfold extractStage
    dsimp only
    rw [osRemove_mem _ _ hmem]
    exact not_mem_filter_self _ _

/-- Witness for C6 with a failing extraction on a concrete filesystem. -/
theorem C6_archive_always_deleted_witness :
    Stage.output "GSE68849" .download ∉
      (extractStage ["data/GSE68849_RAW.tar"] (Stage.output "GSE68849" .download)
        "extracted/GSE68849" (.failed "corrupt archive")).2 :=
  C6_archive_always_deleted ["data/GSE68849_RAW.tar"] "GSE68849"
    "extracted/GSE68849" (.failed "corrupt archive") (by decide)

/-- C7: for every extracted member named with the `.gz` suffix (with a
proper stem, so the extension is actually removed and the stem-derived
output path differs from the member's own path), the member is decompressed
into the subdirectory named after its filename stem, under its stem-derived
name, and the compressed member is deleted; the compressed source is
deleted even when decompression raises, and the decompression error is
re-raised unchanged, aborting the stage. -/
theorem C7_gzip_member (fs : List String) (extractPath item : String)
    (gz : GzipOutcome)
    (hgz : pyEndsWith item ".gz" = true)
    (hmem : extractPath ++ "/" ++ item ∈ fs)
    (hstem : pySplitextRoot item ≠ item)
    (hout : extractPath ++ "/" ++ pySplitextRoot item ++ "/" ++
        pySplitextRoot (pyBasename (extractPath ++ "/" ++ item)) ≠
      extractPath ++ "/" ++ item) :
    extractPath ++ "/" ++ item ∉ (processMember fs extractPath item gz).2 ∧
    extractPath ++ "/" ++ pySplitextRoot item ∈ (processMember fs extractPath item gz).2 ∧
    (gz = .decompressed →
      (processMember fs extractPath item gz).1 = .ok () ∧
      extractPath ++ "/" ++ pySplitextRoot item ++ "/" ++
          pySplitextRoot (pyBasename (extractPath ++ "/" ++ item)) ∈
        (processMember fs extractPath item gz).2) ∧
    (∀ (m : String) (w : Bool), gz = .failed m w →
      (processMember fs extractPath item gz).1 = .error m) := by
  have hdir : extractPath ++ "/" ++ pySplitextRoot item ≠ extractPath ++ "/" ++ item :=
    fun hc => hstem (strAppendCancel _ _ _ hc)
  have hdmem : ∀ g : List String,
      extractPath ++ "/" ++ pySplitextRoot item ∈
        (if extractPath ++ "/" ++ pySplitextRoot item ∈ fs then fs
         else fs ++ [extractPath ++ "/" ++ pySplitextRoot item]) ++ g := by
    intro g
    refine List.mem_append_left _ ?_
    split
    · assumption
    · exact List.mem_append_right _ (by simp)
  have hpmem : ∀ g : List String,
      extractPath ++ "/" ++ item ∈
        (if extractPath ++ "/" ++ pySplitextRoot item ∈ fs then fs
         else fs ++ [extractPath ++ "/" ++ pySplitextRoot item]) ++ g := by
    intro g
    refine List.mem_append_left _ ?_
    split
    · exact hmem
    · exact List.mem_append_left _ hmem
  unfold processMember processGzipFile
  simp only [hgz, if_true]
  cases gz with
  | decompressed =>
    rw [osRemove_mem _ _ (hpmem _)]
    refine ⟨not_mem_filter_self _ _, mem_filter_ne _ _ _ (hdmem _) hdir, ?_, ?_⟩
    · intro _
      refine ⟨rfl, mem_filter_ne _ _ _ ?_ hout⟩
      exact List.mem_append_right _ (by simp)
    · intro m w h
      exact GzipOutcome.noConfusion h
  | failed m w =>
    cases w with
    | true =>
      simp only [if_true]
      rw [osRemove_mem _ _ (hpmem _)]
      refine ⟨not_mem_filter_self _ _, mem_filter_ne _ _ _ (hdmem _) hdir, ?_, ?_⟩
      · intro h; exact GzipOutcome.noConfusion h
      · intro m' w' h
        injection h with h1 h2
        rw [h1]
    | false =>
      simp only [Bool.false_eq_true, if_false]
      rw [show (if extractPath ++ "/" ++ pySplitextRoot item ∈ fs then fs
         else fs ++ [extractPath ++ "/" ++ pySplitextRoot item]) =
        (if extractPath ++ "/" ++ pySplitextRoot item ∈ fs then fs
         else fs ++ [extractPath ++ "/" ++ pySplitextRoot item]) ++ [] from
        (List.append_nil _).symm, osRemove_mem _ _ (hpmem _)]
      refine ⟨not_mem_filter_self _ _, mem_filter_ne _ _ _ (hdmem _) hdir, ?_, ?_⟩
      · intro h; exact GzipOutcome.noConfusion h
      · intro m' w' h
        injection h with h1 h2
        rw [h1]

/-- Witness for C7 with a successful decompression of a concrete member. -/
theorem C7_gzip_member_witness :
    "extracted/GSE68849/GSM1684095_sample.txt.gz" ∉
      (processMember ["extracted/GSE68849/GSM1684095_sample.txt.gz"]
        "extracted/GSE68849" "GSM1684095_sample.txt.gz" .decompressed).2 ∧
    "extracted/GSE68849" ++ "/" ++ pySplitextRoot "GSM1684095_sample.txt.gz" ∈
      (processMember ["extracted/GSE68849/GSM1684095_sample.txt.gz"]
        "extracted/GSE68849" "GSM1684095_sample.txt.gz" .decompressed).2 ∧
    (GzipOutcome.decompressed = .decompressed →
      (processMember ["extracted/GSE68849/GSM1684095_sample.txt.gz"]
        "extracted/GSE68849" "GSM1684095_sample.txt.gz" .decompressed).1 = .ok () ∧
      "extracted/GSE68849" ++ "/" ++ pySplitextRoot "GSM1684095_sample.txt.gz" ++ "/" ++
          pySplitextRoot (pyBasename ("extracted/GSE68849" ++ "/" ++ "GSM1684095_sample.txt.gz")) ∈
        (processMember ["extracted/GSE68849/GSM1684095_sample.txt.gz"]
          "extracted/GSE68849" "GSM1684095_sample.txt.gz" .decompressed).2) ∧
    (∀ (m : String) (w : Bool), GzipOutcome.decompressed = .failed m w →
      (processMember ["extracted/GSE68849/GSM1684095_sample.txt.gz"]
        "extracted/GSE68849" "GSM1684095_sample.txt.gz" .decompressed).1 = .error m) :=
  C7_gzip_member ["extracted/GSE68849/GSM1684095_sample.txt.gz"]
    "extracted/GSE68849" "GSM1684095_sample.txt.gz" .decompressed
    (by decide) (by decide) (by decide) (by decide)

/-- C8: if the terminal stage's declared output exists, the engine executes
no stage action at all; any stage whose output exists is skipped; and the
executed stages always form a subsequence of the dependency chain
download → extract → segment, i.e. they run in dependency order. -/
theorem C8_dependency_skip (fs : List String) (id : String) :
    (Stage.output id .segment ∈ fs → runPlan fs id .segment = []) ∧
    (∀ s t : Stage, Stage.output id s ∈ fs → s ∉ runPlan fs id t) ∧
    (∀ t : Stage, List.Sublist (runPlan fs id t)
      [Stage.download, Stage.extract, Stage.segment]) := by
  refine ⟨?_, ?_, ?_⟩
  · intro h
    simp [runPlan, planSegment, h]
  · intro s t hs
    cases s <;> cases t <;>
      simp only [runPlan, planSegment, planExtract, planDownload] <;>
      split_ifs <;> simp_all
  · intro t
    cases t <;>
      simp only [runPlan, planSegment, planExtract, planDownload] <;>
      split_ifs <;> decide

/-- Witness for C8: with the processed output present, nothing runs. -/
theorem C8_dependency_skip_witness :
    runPlan ["processed/GSE68849"] "GSE68849" .segment = [] :=
  (C8_dependency_skip ["processed/GSE68849"] "GSE68849").1 (by decide)

end Pipeline19
